import Mathlib

/-!
Shallow embedding of the ReachInbox email aggregator.

Source layout:
* `src/services/imap.service.ts` — IMAP supervisor: initial backfill fetch,
  live new-mail listener, keep-alive timer, reconnect handling, handoff
  (`processEmail`) into the indexing pipeline.
* `src/services/elasticsearch.service.ts` — `indexEmail`: builds the document
  from a parsed mail, asks the AI service for a category, upserts into the
  `emails` index keyed by `messageId`, then triggers notifications.
* `src/services/ai.service.ts` — `categorizeEmail` with a 10s timeout and the
  fallback category `General` on any failure.
* `src/services/notification.service.ts` — `sendInterestNotification`: for
  documents categorized `Interested`, one Slack attempt and one external
  webhook attempt, each wrapped in its own try/catch.
* `src/index.ts` — `startApp`: Elasticsearch init (fatal on failure), parse of
  the `IMAP_ACCOUNTS` environment variable (parse errors caught and logged),
  then the Express API server is started.

External effects (network responses, store success, notification sink success)
are passed in as explicit parameters; JavaScript truthiness on strings
(`s || dflt` treats the empty string as falsy) is modelled by `jsOrOpt`.
-/

/-- The fixed label set returned by the AI service (`ai.service.ts`). -/
inductive EmailCategory
  | Interested
  | MeetingBooked
  | NotInterested
  | Spam
  | OutOfOffice
  | General
deriving DecidableEq, Repr

/-- `const fallbackCategory: EmailCategory = 'General'` in `ai.service.ts`. -/
def fallbackCategory : EmailCategory := EmailCategory.General

/-- Outcome of the HTTP POST to the AI collaborator: a response whose
`data?.category` may be absent, or a timeout/transport failure (the branch
taken by the `catch` in `categorizeEmail`). -/
inductive AIResponse
  | success (category : Option EmailCategory)
  | failure
deriving DecidableEq, Repr

/-- The payload posted to `/categorize`. -/
structure AIRequest where
  subject : String
  body : String
deriving DecidableEq, Repr

/-- JavaScript `s || dflt` on an optional string: `undefined` and the empty
string are both falsy and select the default. -/
def jsOrOpt (s : Option String) (dflt : String) : String :=
  match s with
  | none => dflt
  | some v => if v = "" then dflt else v

/-- JavaScript `s || dflt` on a plain string. -/
def jsOr (s dflt : String) : String :=
  if s = "" then dflt else s

/-- JavaScript `s ? s : undefined` on an optional string (used for
`htmlBody`): an empty string is falsy and becomes `undefined`. -/
def jsTruthy (s : Option String) : Option String :=
  match s with
  | none => none
  | some v => if v = "" then none else some v

/-- The category `categorizeEmail` returns for a given transport outcome:
`data?.category || fallbackCategory` on success, `fallbackCategory` in the
`catch` branch (timeout or any other failure). -/
def categoryFromResponse : AIResponse → EmailCategory
  | AIResponse.success (some c) => c
  | AIResponse.success none => fallbackCategory
  | AIResponse.failure => fallbackCategory

/-- The request body built inside `categorizeEmail`:
`safeSubject = subject || 'No Subject'; safeBody = body || ''`. -/
def categorizeRequest (subject body : String) : AIRequest :=
  { subject := jsOr subject "No Subject", body := jsOr body "" }

/-- Result of one `categorizeEmail` call: the request that was posted and the
category the function returned. The function never rejects; all failures are
caught and mapped to `fallbackCategory`. -/
structure CategorizeResult where
  request : AIRequest
  category : EmailCategory
deriving DecidableEq, Repr

/-- `categorizeEmail(subject, body)` from `ai.service.ts`, with the transport
outcome as an explicit parameter. -/
def categorizeEmail (subject body : String) (resp : AIResponse) : CategorizeResult :=
  { request := categorizeRequest subject body
    category := categoryFromResponse resp }

/-- The `to` field of a parsed mail (`mailparser`): either a single address
object or an array of address objects; `addr.text` is the displayable text. -/
inductive ToField
  | single (text : String)
  | multiple (texts : List String)
deriving DecidableEq, Repr

/-- `Array.isArray(email.to) ? email.to.map(addr => addr.text).join(', ')
: email.to?.text` from `indexEmail`. -/
def standardizeTo (t : Option ToField) : Option String :=
  match t with
  | some (ToField.multiple texts) => some (String.intercalate ", " texts)
  | some (ToField.single text) => some text
  | none => none

/-- A decoded message as produced by `simpleParser` (`mailparser`'s
`ParsedMail`), restricted to the fields the pipeline reads. `fromAddr` is
`email.from?.text`; `date` is a timestamp, absent when the source omits the
header. -/
structure ParsedMail where
  messageId : Option String
  fromAddr : Option String
  toField : Option ToField
  subject : Option String
  text : Option String
  html : Option String
  date : Option Int
deriving DecidableEq, Repr

/-- The `EmailDocument` interface of `elasticsearch.service.ts`. -/
structure EmailDocument where
  accountId : String
  messageId : Option String
  fromAddr : Option String
  toAddr : Option String
  subject : Option String
  body : Option String
  htmlBody : Option String
  receivedAt : Int
  aiCategory : Option EmailCategory
deriving DecidableEq, Repr

/-- The Elasticsearch `emails` index: documents keyed by their store id, plus
a counter for auto-generated ids (Elasticsearch generates an id when `index`
is called with `id: undefined`). -/
structure ESStore where
  docs : List (String × EmailDocument)
  nextAutoId : Nat
deriving DecidableEq, Repr

/-- The store-generated id used when a document is indexed without a key. -/
def ESStore.autoKey (s : ESStore) : String :=
  String.append "auto-" (toString s.nextAutoId)

/-- `client.index({ index, id, document })`: with an explicit id this is an
upsert that replaces the whole document at that id (last write wins); with
`id: undefined` the store generates a fresh id and always creates a new
document. -/
def esIndex (s : ESStore) (id : Option String) (doc : EmailDocument) : ESStore :=
  match id with
  | some k =>
      { docs := (k, doc) :: s.docs.filter (fun p => p.1 != k)
        nextAutoId := s.nextAutoId }
  | none =>
      { docs := (s.autoKey, doc) :: s.docs
        nextAutoId := s.nextAutoId + 1 }

/-- Read the document stored under key `k`. -/
def ESStore.lookup (s : ESStore) (k : String) : Option EmailDocument :=
  (s.docs.find? (fun p => p.1 == k)).map (fun p => p.2)

/-- Number of stored entries under key `k` (duplication measure). -/
def ESStore.countKey (s : ESStore) (k : String) : Nat :=
  s.docs.countP (fun p => p.1 == k)

/-- Step 2 of `indexEmail` (`elasticsearch.service.ts` lines 99-109): the
document built from the parsed mail. `subject` and `body` are the raw parsed
fields (no defaulting); `receivedAt` is `email.date || new Date()` — a `Date`
object is never falsy, so only an absent date falls back to processing time
`now`; `htmlBody` is `email.html ? email.html : undefined`. -/
def buildDocument (email : ParsedMail) (accountId : String) (now : Int)
    (category : EmailCategory) : EmailDocument :=
  { accountId := accountId
    messageId := email.messageId
    fromAddr := email.fromAddr
    toAddr := standardizeTo email.toField
    subject := email.subject
    body := email.text
    htmlBody := jsTruthy email.html
    receivedAt := (email.date).getD now
    aiCategory := some category }

/-- Configuration of `NotificationService`: which sinks have a URL set. -/
structure NotificationConfig where
  slackConfigured : Bool
  webhookConfigured : Bool
deriving DecidableEq, Repr

/-- The two notification sinks of `notification.service.ts`. -/
inductive Sink
  | slack
  | webhookSite
deriving DecidableEq, Repr

/-- External-effect outcomes for one `indexEmail` call: the AI transport
outcome, whether `client.index` succeeds, and whether each notification sink
send succeeds. -/
structure World where
  aiResponse : AIResponse
  indexOk : Bool
  slackOk : Bool
  webhookOk : Bool
deriving DecidableEq, Repr

/-- `sendInterestNotification` from `notification.service.ts`: returns the
list of notification attempts made, each tagged with its sink and whether the
send succeeded. Documents whose category is not `Interested` produce no
attempt. Each sink's send is wrapped in its own try/catch, so a failed
attempt is recorded but never thrown and never suppresses the later sink;
the function never rejects. -/
def sendInterestNotification (cfg : NotificationConfig) (w : World)
    (email : EmailDocument) : List (Sink × Bool) :=
  if email.aiCategory ≠ some EmailCategory.Interested then
    []
  else
    (if cfg.slackConfigured then [(Sink.slack, w.slackOk)] else []) ++
    (if cfg.webhookConfigured then [(Sink.webhookSite, w.webhookOk)] else [])

/-- Number of attempts against a given sink in an attempt list. -/
def countSink (l : List (Sink × Bool)) (s : Sink) : Nat :=
  l.countP (fun p => p.1 == s)

/-- The error thrown by a failing `client.index` call. -/
inductive StorageError
  | indexFailed
deriving DecidableEq, Repr

/-- The body of `indexEmail`'s `try` block (`elasticsearch.service.ts` lines
86-121): standardize fields, get the AI category (never throws), build the
document, index it (may throw — modelled by `w.indexOk = false`), then
trigger notifications (never throws). Returns the new store and the
notification attempts, or the storage error. -/
def indexEmailTry (cfg : NotificationConfig) (w : World) (store : ESStore)
    (email : ParsedMail) (accountId : String) (now : Int) :
    Except StorageError (ESStore × List (Sink × Bool)) :=
  let emailBody := jsOrOpt email.text ""
  let emailSubject := jsOrOpt email.subject "No Subject"
  let cat := categorizeEmail emailSubject emailBody w.aiResponse
  let document := buildDocument email accountId now cat.category
  if w.indexOk then
    Except.ok (esIndex store document.messageId document,
               sendInterestNotification cfg w document)
  else
    Except.error StorageError.indexFailed

/-- Observable result of one `indexEmail` call: the store afterwards, the
notification attempts, and whether the catch branch logged an error. -/
structure IndexResult where
  store : ESStore
  notifications : List (Sink × Bool)
  errorLogged : Bool
deriving DecidableEq, Repr

/-- `indexEmail` from `elasticsearch.service.ts`: the whole body is wrapped
in try/catch, so any failure is logged and absorbed — the store is left as it
was at the point of failure and no notification is attempted after a storage
failure. The function never rejects. -/
def indexEmail (cfg : NotificationConfig) (w : World) (store : ESStore)
    (email : ParsedMail) (accountId : String) (now : Int) : IndexResult :=
  match indexEmailTry cfg w store email accountId now with
  | Except.ok (s, n) => { store := s, notifications := n, errorLogged := false }
  | Except.error _ => { store := store, notifications := [], errorLogged := true }

/-- What the supervisor observes from one handoff: either the indexing
completed (possibly having logged internal failures) or a rejection escaped
back into the supervisor. -/
inductive HandoffOutcome
  | completed (r : IndexResult)
  | rejected (e : StorageError)
deriving DecidableEq, Repr

/-- `processEmail` from `imap.service.ts`: calls `esService.indexEmail` and
attaches `.catch(...)`; since `indexEmail` itself catches everything, the
outcome is always `completed` — nothing rejects back into the supervisor. -/
def processEmail (cfg : NotificationConfig) (w : World) (store : ESStore)
    (email : ParsedMail) (accountId : String) (now : Int) : HandoffOutcome :=
  HandoffOutcome.completed (indexEmail cfg w store email accountId now)

/-- One entry of the `IMAP_ACCOUNTS` configuration (`account.interface.ts`):
the connection options are opaque to the claims, only the id is kept. -/
structure IAccountConfig where
  id : String
deriving DecidableEq, Repr

/-- Observable outcome of `startApp` (`index.ts`): either the process exited
with a code, or it keeps running with some number of account syncs started
and the API server listening. -/
inductive StartupOutcome
  | exited (code : Nat)
  | running (syncedAccounts : Nat) (apiServerStarted : Bool)
deriving DecidableEq, Repr

/-- `startApp` from `index.ts` lines 137-168. Inputs: whether Elasticsearch
initialization succeeds (its failure calls `process.exit(1)`), and the
`IMAP_ACCOUNTS` environment variable — `none` when unset, `some (.error _)`
when present but `JSON.parse` throws, `some (.ok accounts)` when it parses.
A parse failure is caught by the surrounding try/catch (line 159-161), which
only logs; execution then falls through to `app.listen(PORT, ...)`. -/
def startApp (esInitOk : Bool)
    (imapAccounts : Option (Except Unit (List IAccountConfig))) : StartupOutcome :=
  if esInitOk then
    match imapAccounts with
    | none => StartupOutcome.running 0 true
    | some (Except.error _) => StartupOutcome.running 0 true
    | some (Except.ok accounts) => StartupOutcome.running accounts.length true
  else
    StartupOutcome.exited 1

/-- Whether a startup outcome is a process exit. -/
def processExited : StartupOutcome → Bool
  | StartupOutcome.exited _ => true
  | StartupOutcome.running _ _ => false

/-- Whether the API server was started in a startup outcome. -/
def apiStarted : StartupOutcome → Bool
  | StartupOutcome.exited _ => false
  | StartupOutcome.running _ b => b

/-- Connection states of the `node-imap` client (`this.imap.state`). -/
inductive ImapState
  | disconnected
  | connected
  | authenticated
deriving DecidableEq, Repr

/-- Search criteria the supervisor issues: `[['SINCE', date]]` during
backfill (date at day granularity, modelled as an integer day number) and
`['UNSEEN']` on a new-mail signal. -/
inductive SearchCriterion
  | since (date : Int)
  | unseen
deriving DecidableEq, Repr

/-- Options passed to `imap.fetch`. `node-imap` defaults `markSeen` to
`false` when the option is omitted, as in the backfill call
`fetch(uids, { bodies: '' })`. -/
structure FetchOptions where
  bodies : String
  markSeen : Bool
deriving DecidableEq, Repr

/-- Protocol commands the supervisor sends on the connection. -/
inductive ImapCommand
  | search (criteria : List SearchCriterion)
  | fetch (uids : List Nat) (opts : FetchOptions)
  | noop
deriving DecidableEq, Repr

/-- A raw (undecoded) message body stream. -/
abbrev RawMessage := String

/-- One server-side mailbox entry: its uid, its seen flag, and its raw
contents. -/
structure MailboxMsg where
  uid : Nat
  seen : Bool
  raw : RawMessage
deriving DecidableEq, Repr

/-- Server-side effect of a `fetch(uids, opts)` command on the mailbox's
seen flags (IMAP semantics of the `markSeen` option): with `markSeen: true`
every fetched uid is flagged seen at fetch time; with `markSeen: false` the
read state is untouched. -/
def applyFetch (mbox : List MailboxMsg) (uids : List Nat)
    (opts : FetchOptions) : List MailboxMsg :=
  if opts.markSeen then
    mbox.map (fun m => if m.uid ∈ uids then { m with seen := true } else m)
  else
    mbox

/-- The raw bodies the server streams back for the fetched uids. -/
def fetchedRaws (mbox : List MailboxMsg) (uids : List Nat) : List RawMessage :=
  (mbox.filter (fun m => m.uid ∈ uids)).map (fun m => m.raw)

/-- The per-message handler both fetch paths install:
`simpleParser(stream, (err, parsedMail) => ...)` — on a parse error the
message is logged and skipped (`return`), otherwise `processEmail` is called;
so the handoffs of a batch are exactly the successfully decoded messages,
paired with the account id. -/
def batchHandoffs (raws : List RawMessage)
    (decode : RawMessage → Option ParsedMail) (accountId : String) :
    List (ParsedMail × String) :=
  raws.filterMap (fun r => (decode r).map (fun p => (p, accountId)))

/-- Number of parse-error log lines produced while handling a batch: one per
message whose decode fails. -/
def batchParseErrors (raws : List RawMessage)
    (decode : RawMessage → Option ParsedMail) : Nat :=
  raws.countP (fun r => (decode r).isNone)

/-- The backfill fetch options: `fetch(uids, { bodies: '' })`, leaving
`markSeen` at the `node-imap` default `false`. -/
def backfillFetchOptions : FetchOptions := { bodies := "", markSeen := false }

/-- The live-watch fetch options: `fetch(uids, { bodies: '', markSeen: true })`. -/
def liveFetchOptions : FetchOptions := { bodies := "", markSeen := true }

/-- Observable result of one fetch-and-process step: the commands sent, the
mailbox afterwards, the messages handed off, and the connection state
afterwards. -/
structure FetchStepResult where
  commands : List ImapCommand
  mbox : List MailboxMsg
  handoffs : List (ParsedMail × String)
  connState : ImapState
deriving Repr

/-- `fetchInitialEmails` from `imap.service.ts` lines 87-132. The search
date is computed by `setDate(getDate() - 1)` on the current date — one day
before `now` (despite the comment announcing 30 days). The search outcome is
a server input: an error, or a uid list. On error or an empty list the
handler returns after logging; otherwise, if the connection is no longer
authenticated the fetch is aborted; otherwise the uids are fetched with the
backfill options and each body is parsed and handed off. -/
def fetchInitialEmails (now : Int) (connState : ImapState)
    (searchResult : Except Unit (List Nat)) (mbox : List MailboxMsg)
    (decode : RawMessage → Option ParsedMail) (accountId : String) :
    FetchStepResult :=
  let searchCmd := ImapCommand.search [SearchCriterion.since (now - 1)]
  match searchResult with
  | Except.error _ =>
      { commands := [searchCmd], mbox := mbox, handoffs := [], connState := connState }
  | Except.ok uids =>
      if uids.length = 0 then
        { commands := [searchCmd], mbox := mbox, handoffs := [], connState := connState }
      else if connState ≠ ImapState.authenticated then
        { commands := [searchCmd], mbox := mbox, handoffs := [], connState := connState }
      else
        { commands := [searchCmd, ImapCommand.fetch uids backfillFetchOptions]
          mbox := applyFetch mbox uids backfillFetchOptions
          handoffs := batchHandoffs (fetchedRaws mbox uids) decode accountId
          connState := connState }

/-- The `'mail'` event handler installed by `listenForNewEmails`
(`imap.service.ts` lines 137-178): if the connection is not authenticated
the search is aborted; otherwise search `['UNSEEN']`; on error or no uids
stop; otherwise fetch with `markSeen: true`, parse each body, hand off. -/
def listenForNewEmails_onMail (connState : ImapState)
    (searchResult : Except Unit (List Nat)) (mbox : List MailboxMsg)
    (decode : RawMessage → Option ParsedMail) (accountId : String) :
    FetchStepResult :=
  if connState ≠ ImapState.authenticated then
    { commands := [], mbox := mbox, handoffs := [], connState := connState }
  else
    let searchCmd := ImapCommand.search [SearchCriterion.unseen]
    match searchResult with
    | Except.error _ =>
        { commands := [searchCmd], mbox := mbox, handoffs := [], connState := connState }
    | Except.ok uids =>
        if uids.length = 0 then
          { commands := [searchCmd], mbox := mbox, handoffs := [], connState := connState }
        else
          { commands := [searchCmd, ImapCommand.fetch uids liveFetchOptions]
            mbox := applyFetch mbox uids liveFetchOptions
            handoffs := batchHandoffs (fetchedRaws mbox uids) decode accountId
            connState := connState }

/-- The search commands contained in a command trace. -/
def searchCommands (cmds : List ImapCommand) : List (List SearchCriterion) :=
  cmds.filterMap (fun c =>
    match c with
    | ImapCommand.search criteria => some criteria
    | _ => none)

/-- Events driving the supervisor's keep-alive lifecycle: `readyOpened` is
the `openBox` callback succeeding inside `onReady` (which installs the
5-minute interval), `tick` is one firing of that interval, `closed` is the
connection's `'close'` event (whose handler clears the interval). -/
inductive SupEvent
  | readyOpened
  | tick
  | closed
deriving DecidableEq, Repr

/-- Supervisor-visible state: the `node-imap` connection state, whether the
keep-alive interval is installed, and its period in milliseconds. -/
structure SupervisorState where
  imapState : ImapState
  keepAliveActive : Bool
  keepAlivePeriodMs : Nat
deriving DecidableEq, Repr

/-- One supervisor step (`imap.service.ts`): `readyOpened` (lines 72-80)
clears any previous interval and installs a fresh one with period 300000 ms
on the now-authenticated connection; `tick` (lines 74-79) sends the NOOP
only when `imap.state === 'authenticated'`, otherwise it does nothing;
`closed` (lines 43-52) clears the interval and leaves the connection
disconnected. Returns the new state and the commands sent. -/
def stepSup (s : SupervisorState) (e : SupEvent) :
    SupervisorState × List ImapCommand :=
  match e with
  | SupEvent.readyOpened =>
      ({ imapState := ImapState.authenticated
         keepAliveActive := true
         keepAlivePeriodMs := 300000 }, [])
  | SupEvent.tick =>
      if s.keepAliveActive then
        if s.imapState = ImapState.authenticated then (s, [ImapCommand.noop])
        else (s, [])
      else (s, [])
  | SupEvent.closed =>
      ({ imapState := ImapState.disconnected
         keepAliveActive := false
         keepAlivePeriodMs := s.keepAlivePeriodMs }, [])

/-- Run the supervisor over a sequence of events, collecting all commands. -/
def runSup (s : SupervisorState) : List SupEvent → SupervisorState × List ImapCommand
  | [] => (s, [])
  | e :: es =>
      let r1 := stepSup s e
      let r2 := runSup r1.1 es
      (r2.1, r1.2 ++ r2.2)

/-- A notification configuration with both sinks configured. -/
def cfg0 : NotificationConfig := { slackConfigured := true, webhookConfigured := true }

/-- An empty store. -/
def store0 : ESStore := { docs := [], nextAutoId := 0 }

/-- An effect world where the AI call fails and everything else succeeds. -/
def wOk : World :=
  { aiResponse := AIResponse.failure, indexOk := true, slackOk := true, webhookOk := true }

/-- An effect world where the store's index call fails. -/
def wBad : World :=
  { aiResponse := AIResponse.failure, indexOk := false, slackOk := true, webhookOk := true }

/-- A fully populated sample message. -/
def sampleEmail : ParsedMail :=
  { messageId := some "m1", fromAddr := some "alice at example", toField := none,
    subject := some "Hi", text := some "hello", html := none, date := some 5 }

/-- A message whose source omits the subject, body, html and date headers. -/
def noHeaderEmail : ParsedMail :=
  { messageId := some "m2", fromAddr := none, toField := none,
    subject := none, text := none, html := none, date := none }

/-- A stored document carrying the high-value label. -/
def interestedDoc : EmailDocument :=
  buildDocument sampleEmail "acct1" 0 EmailCategory.Interested

/-- A supervisor state in Ready with the keep-alive timer installed. -/
def s0 : SupervisorState :=
  { imapState := ImapState.authenticated, keepAliveActive := true, keepAlivePeriodMs := 300000 }

/-- When the store call succeeds, `indexEmail` upserts exactly the document
built from the parsed mail, keyed by its message identifier. -/
theorem indexEmail_ok_store (cfg : NotificationConfig) (w : World) (store : ESStore)
    (email : ParsedMail) (acc : String) (now : Int) (h : w.indexOk = true) :
    (indexEmail cfg w store email acc now).store
      = esIndex store email.messageId
          (buildDocument email acc now (categoryFromResponse w.aiResponse)) := by
  simp [indexEmail, indexEmailTry, h, categorizeEmail, buildDocument]

/-- Upserting at key `k` makes `k` resolve to the new document. -/
theorem esIndex_lookup_self (s : ESStore) (k : String) (d : EmailDocument) :
    (esIndex s (some k) d).lookup k = some d := by
  simp [esIndex, ESStore.lookup]

/-- After an upsert at key `k` the store holds exactly one entry under `k`. -/
theorem esIndex_countKey_self (s : ESStore) (k : String) (d : EmailDocument) :
    (esIndex s (some k) d).countKey k = 1 := by
  simp only [esIndex, ESStore.countKey, List.countP_cons]
  have hz : (s.docs.filter (fun p => p.1 != k)).countP (fun p => p.1 == k) = 0 := by
    rw [List.countP_eq_zero]
    intro a ha
    have := (List.mem_filter.mp ha).2
    simpa using this
  simp [hz]

/-- C1: for every message with a present message identifier, indexing the
same decoded message twice stores it under the same store key (the message
identifier); the stored document after the second pass is the document
produced by the second pass, and the key holds exactly one entry —
re-indexing overwrites and never duplicates. -/
theorem C1_reindex_overwrites_not_duplicates
    (cfg : NotificationConfig) (w1 w2 : World) (store : ESStore)
    (email : ParsedMail) (acc : String) (now1 now2 : Int) (k : String)
    (hmid : email.messageId = some k)
    (h1 : w1.indexOk = true) (h2 : w2.indexOk = true) :
    ((indexEmail cfg w1 store email acc now1).store).lookup k
      = some (buildDocument email acc now1 (categoryFromResponse w1.aiResponse)) ∧
    ((indexEmail cfg w1 store email acc now1).store).countKey k = 1 ∧
    ((indexEmail cfg w2 (indexEmail cfg w1 store email acc now1).store email acc now2).store).lookup k
      = some (buildDocument email acc now2 (categoryFromResponse w2.aiResponse)) ∧
    ((indexEmail cfg w2 (indexEmail cfg w1 store email acc now1).store email acc now2).store).countKey k
      = 1 := by
  rw [indexEmail_ok_store _ _ _ _ _ _ h2, indexEmail_ok_store _ _ _ _ _ _ h1, hmid]
  exact ⟨esIndex_lookup_self _ _ _, esIndex_countKey_self _ _ _,
    esIndex_lookup_self _ _ _, esIndex_countKey_self _ _ _⟩

/-- C1 witness: a concrete double index of the same message. -/
theorem C1_witness :
    ((indexEmail cfg0 wOk store0 sampleEmail "acct1" 1).store).lookup "m1"
      = some (buildDocument sampleEmail "acct1" 1 (categoryFromResponse wOk.aiResponse)) ∧
    ((indexEmail cfg0 wOk store0 sampleEmail "acct1" 1).store).countKey "m1" = 1 ∧
    ((indexEmail cfg0 wOk (indexEmail cfg0 wOk store0 sampleEmail "acct1" 1).store sampleEmail "acct1" 2).store).lookup "m1"
      = some (buildDocument sampleEmail "acct1" 2 (categoryFromResponse wOk.aiResponse)) ∧
    ((indexEmail cfg0 wOk (indexEmail cfg0 wOk store0 sampleEmail "acct1" 1).store sampleEmail "acct1" 2).store).countKey "m1"
      = 1 :=
  C1_reindex_overwrites_not_duplicates cfg0 wOk wOk store0 sampleEmail "acct1" 1 2 "m1" rfl rfl rfl

/-- C2: on reaching Ready the backfill issues exactly one search, its SINCE
date is the current date minus one day (the observed one-day lookback), and
that date differs from the 30-day intent documented in the code comment. -/
theorem C2_backfill_search_window_one_day (now : Int) (connState : ImapState)
    (searchResult : Except Unit (List Nat)) (mbox : List MailboxMsg)
    (decode : RawMessage → Option ParsedMail) (accountId : String) :
    searchCommands (fetchInitialEmails now connState searchResult mbox decode accountId).commands
      = [[SearchCriterion.since (now - 1)]] ∧
    now - 1 ≠ now - 30 := by
  constructor
  · unfold fetchInitialEmails
    cases searchResult with
    | error e => simp [searchCommands]
    | ok uids =>
        by_cases h1 : uids.length = 0
        · simp [h1, searchCommands]
        · by_cases h2 : connState = ImapState.authenticated
          · simp [h1, h2, searchCommands]
          · simp [h1, h2, searchCommands]
  · omega

/-- C2 witness: the single search issued on a concrete day. -/
theorem C2_witness :
    searchCommands (fetchInitialEmails 20000 ImapState.authenticated
        (Except.ok [1]) [] (fun _ => none) "acct1").commands
      = [[SearchCriterion.since (20000 - 1)]] :=
  (C2_backfill_search_window_one_day 20000 ImapState.authenticated
      (Except.ok [1]) [] (fun _ => none) "acct1").1

/-- The `IMAP_ACCOUNTS` value being present but unparseable. -/
def malformedAccounts : Option (Except Unit (List IAccountConfig)) :=
  some (Except.error ())

/-- C3 counterexample: with Elasticsearch initialization succeeding and a
present-but-malformed `IMAP_ACCOUNTS`, the process does not exit and the API
server is still started — startup is not fatal, contrary to the claim. -/
theorem C3_counterexample_malformed_config_not_fatal :
    processExited (startApp true malformedAccounts) = false ∧
    apiStarted (startApp true malformedAccounts) = true := by
  decide

/-- C3 amended: a malformed account-configuration input is caught and
logged; no account sync is started (no partial account list), but the
process continues and the API server starts. Only the storage-backend
initialization failure is fatal at startup. -/
theorem C3_malformed_config_logged_server_starts (esInitOk : Bool) :
    startApp esInitOk malformedAccounts
      = (if esInitOk then StartupOutcome.running 0 true else StartupOutcome.exited 1) := by
  cases esInitOk <;> rfl

/-- C4: the backfill fetch carries `markSeen = false` and leaves the
server-side read state (indeed the whole mailbox) unchanged in every branch,
while the live-watch fetch carries `markSeen = true` and marks every fetched
uid seen — for every possible decode outcome, so decode failures downstream
cannot unmark them. -/
theorem C4_markSeen_semantics (now : Int) (connState : ImapState)
    (sr : Except Unit (List Nat)) (mbox : List MailboxMsg)
    (decode : RawMessage → Option ParsedMail) (acc : String) (uids : List Nat) :
    backfillFetchOptions.markSeen = false ∧
    (fetchInitialEmails now connState sr mbox decode acc).mbox = mbox ∧
    liveFetchOptions.markSeen = true ∧
    (connState = ImapState.authenticated → sr = Except.ok uids → uids ≠ [] →
      ∀ m ∈ (listenForNewEmails_onMail connState sr mbox decode acc).mbox,
        m.uid ∈ uids → m.seen = true) := by
  refine ⟨rfl, ?_, rfl, ?_⟩
  · unfold fetchInitialEmails
    cases sr with
    | error e => rfl
    | ok us =>
        by_cases h1 : us.length = 0
        · simp [h1]
        · by_cases h2 : connState = ImapState.authenticated
          · simp [h1, h2, applyFetch, backfillFetchOptions]
          · simp [h1, h2]
  · intro hc hs hne m hm hmu
    subst hc
    subst hs
    have hlen : ¬ uids.length = 0 := by
      simpa [List.length_eq_zero] using hne
    simp only [listenForNewEmails_onMail, ne_eq, not_true_eq_false, if_false,
      hlen, if_neg, applyFetch, liveFetchOptions, if_true] at hm
    rw [List.mem_map] at hm
    obtain ⟨m0, hm0, rfl⟩ := hm
    by_cases hin : m0.uid ∈ uids
    · simp [hin]
    · rw [if_neg hin] at hmu
      exact absurd hmu hin

/-- C4 witness: one unseen message fetched by the live path ends up seen
even though its decode fails. -/
theorem C4_witness : MailboxMsg.seen { uid := 1, seen := true, raw := "r" } = true :=
  (C4_markSeen_semantics 0 ImapState.authenticated (Except.ok [1])
      [{ uid := 1, seen := false, raw := "r" }] (fun _ => none) "acct1" [1]).2.2.2
    rfl rfl (by decide) { uid := 1, seen := true, raw := "r" } (by decide) (by decide)

/-- C5: when the AI categorization call fails (timeout or any error),
`categorizeEmail` returns the fallback category `General` instead of
propagating the failure; the message is still indexed tagged with that
fallback; and no notification attempt is made, because `General` is not the
high-value label `Interested`. -/
theorem C5_ai_failure_fallback_general_no_notification
    (cfg : NotificationConfig) (store : ESStore) (email : ParsedMail)
    (acc : String) (now : Int) (so wo : Bool) :
    categoryFromResponse AIResponse.failure = fallbackCategory ∧
    fallbackCategory = EmailCategory.General ∧
    (indexEmail cfg { aiResponse := AIResponse.failure, indexOk := true, slackOk := so, webhookOk := wo } store email acc now).store
      = esIndex store email.messageId (buildDocument email acc now fallbackCategory) ∧
    (buildDocument email acc now fallbackCategory).aiCategory = some EmailCategory.General ∧
    (indexEmail cfg { aiResponse := AIResponse.failure, indexOk := true, slackOk := so, webhookOk := wo } store email acc now).notifications
      = [] := by
  refine ⟨rfl, rfl, ?_, rfl, ?_⟩
  · exact indexEmail_ok_store _ _ _ _ _ _ rfl
  · simp [indexEmail, indexEmailTry, categorizeEmail, buildDocument,
      sendInterestNotification, categoryFromResponse, fallbackCategory]

/-- C6: a document carrying the high-value label `Interested` triggers
exactly one notification attempt per configured sink, for every outcome
world — in particular a failing Slack send does not suppress the webhook
attempt and vice versa — and the persisted store does not depend on the
notification outcomes (no rollback). -/
theorem C6_interested_one_attempt_per_sink
    (cfg cfg2 : NotificationConfig) (w : World) (doc : EmailDocument)
    (ai : AIResponse) (iOk so1 wo1 so2 wo2 : Bool)
    (store : ESStore) (email : ParsedMail) (acc : String) (now : Int)
    (h : doc.aiCategory = some EmailCategory.Interested) :
    countSink (sendInterestNotification cfg w doc) Sink.slack
      = (if cfg.slackConfigured then 1 else 0) ∧
    countSink (sendInterestNotification cfg w doc) Sink.webhookSite
      = (if cfg.webhookConfigured then 1 else 0) ∧
    (indexEmail cfg2 { aiResponse := ai, indexOk := iOk, slackOk := so1, webhookOk := wo1 } store email acc now).store
      = (indexEmail cfg2 { aiResponse := ai, indexOk := iOk, slackOk := so2, webhookOk := wo2 } store email acc now).store := by
  refine ⟨?_, ?_, ?_⟩
  · cases hs : cfg.slackConfigured <;> cases hw : cfg.webhookConfigured <;>
      simp [sendInterestNotification, h, countSink, hs, hw]
  · cases hs : cfg.slackConfigured <;> cases hw : cfg.webhookConfigured <;>
      simp [sendInterestNotification, h, countSink, hs, hw]
  · cases iOk <;> simp [indexEmail, indexEmailTry]

/-- C6 witness: concrete `Interested` document, both sinks configured. -/
theorem C6_witness :
    countSink (sendInterestNotification cfg0 wOk interestedDoc) Sink.slack
      = (if cfg0.slackConfigured then 1 else 0) :=
  (C6_interested_one_attempt_per_sink cfg0 cfg0 wOk interestedDoc
      AIResponse.failure true true true true true store0 sampleEmail "acct1" 0 rfl).1

/-- C7: a decode failure of one message of a batch is logged (one parse-error
log line) and only that message is skipped — the handoffs of the batch are
exactly those of the surrounding messages — and neither fetch path ever
changes the connection state. -/
theorem C7_decode_failure_skips_only_that_message
    (now : Int) (connState : ImapState) (sr : Except Unit (List Nat))
    (mbox : List MailboxMsg) (decode : RawMessage → Option ParsedMail)
    (acc : String) (xs ys : List RawMessage) (bad : RawMessage)
    (hbad : decode bad = none) :
    batchHandoffs (xs ++ bad :: ys) decode acc
      = batchHandoffs xs decode acc ++ batchHandoffs ys decode acc ∧
    batchParseErrors (xs ++ bad :: ys) decode
      = batchParseErrors xs decode + batchParseErrors ys decode + 1 ∧
    (fetchInitialEmails now connState sr mbox decode acc).connState = connState ∧
    (listenForNewEmails_onMail connState sr mbox decode acc).connState = connState := by
  refine ⟨?_, ?_, ?_, ?_⟩
  · simp [batchHandoffs, List.filterMap_append, List.filterMap_cons, hbad]
  · simp only [batchParseErrors, List.countP_append, List.countP_cons, hbad,
      Option.isNone_none, if_true]
    omega
  · unfold fetchInitialEmails
    cases sr with
    | error e => rfl
    | ok us =>
        by_cases h1 : us.length = 0
        · simp [h1]
        · by_cases h2 : connState = ImapState.authenticated <;> simp [h1, h2]
  · unfold listenForNewEmails_onMail
    by_cases h0 : connState = ImapState.authenticated
    · cases sr with
      | error e => simp [h0]
      | ok us =>
          by_cases h1 : us.length = 0 <;> simp [h0, h1]
    · simp [h0]

/-- C7 witness: a three-message batch whose middle message fails to decode. -/
theorem C7_witness :
    batchHandoffs (["a"] ++ "b" :: ["c"]) (fun _ => none) "acct1"
      = batchHandoffs ["a"] (fun _ => none) "acct1"
        ++ batchHandoffs ["c"] (fun _ => none) "acct1" :=
  (C7_decode_failure_skips_only_that_message 0 ImapState.authenticated
      (Except.ok []) [] (fun _ => none) "acct1" ["a"] ["c"] "b" rfl).1

/-- C8 counterexample: a message with no subject and no date is decoded and
indexed, but the stored document's subject is absent (`none`), not the empty
string the claim promises — only the date receives the processing-time
default. -/
theorem C8_counterexample_missing_subject_not_empty_string :
    (indexEmail cfg0 wOk store0 noHeaderEmail "acct1" 1000).store.lookup "m2"
      = some (buildDocument noHeaderEmail "acct1" 1000 EmailCategory.General) ∧
    (buildDocument noHeaderEmail "acct1" 1000 EmailCategory.General).subject = none ∧
    (buildDocument noHeaderEmail "acct1" 1000 EmailCategory.General).subject ≠ some "" ∧
    (buildDocument noHeaderEmail "acct1" 1000 EmailCategory.General).receivedAt = 1000 := by
  refine ⟨?_, rfl, by decide, rfl⟩
  rfl

/-- C8 amended: for a message whose source omits headers, decoding and
indexing succeed; a missing date is replaced by the current processing time
in the stored document; a missing subject is stored as absent (no
empty-string substitution in the document) — the `No Subject` default is
applied only to the subject sent in the AI categorization request. -/
theorem C8_missing_header_defaults
    (cfg : NotificationConfig) (w : World) (store : ESStore) (email : ParsedMail)
    (acc : String) (now : Int)
    (hd : email.date = none) (hs : email.subject = none) (hok : w.indexOk = true) :
    (indexEmail cfg w store email acc now).errorLogged = false ∧
    (indexEmail cfg w store email acc now).store
      = esIndex store email.messageId
          (buildDocument email acc now (categoryFromResponse w.aiResponse)) ∧
    (buildDocument email acc now (categoryFromResponse w.aiResponse)).receivedAt = now ∧
    (buildDocument email acc now (categoryFromResponse w.aiResponse)).subject = none ∧
    (categorizeRequest (jsOrOpt email.subject "No Subject") (jsOrOpt email.text "")).subject
      = "No Subject" := by
  refine ⟨?_, indexEmail_ok_store _ _ _ _ _ _ hok, ?_, ?_, ?_⟩
  · simp [indexEmail, indexEmailTry, hok]
  · simp [buildDocument, hd]
  · simp [buildDocument, hs]
  · simp [categorizeRequest, jsOrOpt, jsOr, hs]

/-- C8 witness: the amended statement at a concrete header-less message. -/
theorem C8_witness :
    (indexEmail cfg0 wOk store0 noHeaderEmail "acct1" 1000).errorLogged = false ∧
    (indexEmail cfg0 wOk store0 noHeaderEmail "acct1" 1000).store
      = esIndex store0 noHeaderEmail.messageId
          (buildDocument noHeaderEmail "acct1" 1000 (categoryFromResponse wOk.aiResponse)) ∧
    (buildDocument noHeaderEmail "acct1" 1000 (categoryFromResponse wOk.aiResponse)).receivedAt = 1000 ∧
    (buildDocument noHeaderEmail "acct1" 1000 (categoryFromResponse wOk.aiResponse)).subject = none ∧
    (categorizeRequest (jsOrOpt noHeaderEmail.subject "No Subject") (jsOrOpt noHeaderEmail.text "")).subject
      = "No Subject" :=
  C8_missing_header_defaults cfg0 wOk store0 noHeaderEmail "acct1" 1000 rfl rfl rfl

/-- Once the keep-alive interval is cleared, no later event short of a new
`readyOpened` can make a tick send a NOOP. -/
theorem runSup_inactive_no_noop (evts : List SupEvent) :
    ∀ s : SupervisorState, s.keepAliveActive = false →
      SupEvent.readyOpened ∉ evts →
      ImapCommand.noop ∉ (runSup s evts).2 := by
  induction evts with
  | nil =>
      intro s hs hmem
      simp [runSup]
  | cons e es ih =>
      intro s hs hmem
      have hes : SupEvent.readyOpened ∉ es := fun h => hmem (List.mem_cons_of_mem e h)
      cases e with
      | readyOpened => exact absurd (List.mem_cons_self _ _) hmem
      | tick =>
          simp only [runSup, stepSup, hs, Bool.false_eq_true, if_false,
            List.nil_append]
          exact ih s hs hes
      | closed =>
          simp only [runSup, stepSup, List.nil_append]
          exact ih _ rfl hes

/-- C9: the keep-alive timer is installed on entering Ready with the fixed
5-minute (300000 ms) period; a tick sends the NOOP exactly when the
connection is authenticated (and does nothing otherwise); the close event
cancels the timer; and after a close, no tick of any following event
sequence without a new Ready ever sends a NOOP. -/
theorem C9_keepalive_lifecycle (s : SupervisorState) (evts : List SupEvent) :
    (stepSup s SupEvent.readyOpened).1.keepAliveActive = true ∧
    (stepSup s SupEvent.readyOpened).1.keepAlivePeriodMs = 300000 ∧
    (s.imapState ≠ ImapState.authenticated → (stepSup s SupEvent.tick).2 = []) ∧
    (s.keepAliveActive = true → s.imapState = ImapState.authenticated →
      (stepSup s SupEvent.tick).2 = [ImapCommand.noop]) ∧
    (stepSup s SupEvent.closed).1.keepAliveActive = false ∧
    (SupEvent.readyOpened ∉ evts →
      ImapCommand.noop ∉ (runSup (stepSup s SupEvent.closed).1 evts).2) := by
  refine ⟨rfl, rfl, ?_, ?_, rfl, ?_⟩
  · intro hne
    cases ha : s.keepAliveActive <;> simp [stepSup, ha, hne]
  · intro ha hst
    simp [stepSup, ha, hst]
  · intro hmem
    exact runSup_inactive_no_noop evts _ rfl hmem

/-- C9 witness: after a close, two timer periods pass without a NOOP. -/
theorem C9_witness :
    ImapCommand.noop ∉ (runSup (stepSup s0 SupEvent.closed).1 [SupEvent.tick, SupEvent.tick]).2 :=
  (C9_keepalive_lifecycle s0 [SupEvent.tick, SupEvent.tick]).2.2.2.2.2 (by decide)

/-- C10: a handoff never rejects back into the supervisor — `processEmail`
always completes; a notification attempt exists only if the store index call
succeeded; and when persistence fails the error is logged, the store is left
unchanged and no notification is attempted. -/
theorem C10_handoff_never_rejects (cfg : NotificationConfig) (w : World)
    (store : ESStore) (email : ParsedMail) (acc : String) (now : Int) :
    (∃ r, processEmail cfg w store email acc now = HandoffOutcome.completed r) ∧
    ((indexEmail cfg w store email acc now).notifications ≠ [] → w.indexOk = true) ∧
    (w.indexOk = false →
      indexEmail cfg w store email acc now
        = { store := store, notifications := [], errorLogged := true }) := by
  refine ⟨⟨indexEmail cfg w store email acc now, rfl⟩, ?_, ?_⟩
  · intro hn
    cases hw : w.indexOk with
    | true => rfl
    | false =>
        exact absurd (by simp [indexEmail, indexEmailTry, hw]) hn
  · intro hw
    simp [indexEmail, indexEmailTry, hw]

/-- C10 witness: a failing store call leaves the store untouched, logs, and
attempts no notification. -/
theorem C10_witness :
    indexEmail cfg0 wBad store0 sampleEmail "acct1" 0
      = { store := store0, notifications := [], errorLogged := true } :=
  (C10_handoff_never_rejects cfg0 wBad store0 sampleEmail "acct1" 0).2.2 rfl
